import Mathlib

/-!
Shallow embedding of the orange-websocket framing core (websocket-core and
websocket-server crates), together with proofs about its specification.

Bytes are modelled as `Nat` (wire bytes produced by the code are < 256);
machine integers are `Nat` with explicit truncation where the Rust code can
overflow.  Byte streams (`std::io::Read` / `Write`) are modelled as
`List Nat`: a reader is the list of bytes it will yield, reading past the
end is the `UnexpectedEof` I/O error, and a writer is the list of bytes
written.  Fallible Rust functions returning `WebSocketResult<T>` become
`Except WebSocketError T`.
-/

/-- Kinds of `std::io::Error` the modelled code creates or meets:
short reads surface as `UnexpectedEof`, the dataframe size limit as
`InvalidData` (src/websocket-core/src/dataframe.rs). -/
inductive IoKind where
  | UnexpectedEof
  | InvalidData
deriving DecidableEq, Repr

/-- Model of `WebSocketError` (src/websocket-core/src/error.rs). -/
inductive WebSocketError where
  | DataFrameError (msg : String)
  | ProtocolError (msg : String)
  | Io (kind : IoKind)
  | Utf8Error
deriving DecidableEq, Repr

deriving instance DecidableEq for Except

/-- Model of `ReadBytesExt::read_u8` (src/websocket-core/src/codec/order_byte.rs):
one byte from the stream, or `UnexpectedEof`. -/
def readU8 : List Nat → Except WebSocketError (Nat × List Nat)
  | [] => .error (.Io .UnexpectedEof)
  | b :: r => .ok (b, r)

/-- Model of `ReadBytesExt::read_u16::<NetworkEndian>`: two bytes, big endian. -/
def readU16BE : List Nat → Except WebSocketError (Nat × List Nat)
  | b0 :: b1 :: r => .ok (b0 * 256 + b1, r)
  | _ => .error (.Io .UnexpectedEof)

/-- Model of `ReadBytesExt::read_u64::<NetworkEndian>`: eight bytes, big endian. -/
def readU64BE : List Nat → Except WebSocketError (Nat × List Nat)
  | b0 :: b1 :: b2 :: b3 :: b4 :: b5 :: b6 :: b7 :: r =>
      .ok (b0 * 256 ^ 7 + b1 * 256 ^ 6 + b2 * 256 ^ 5 + b3 * 256 ^ 4 +
           b4 * 256 ^ 3 + b5 * 256 ^ 2 + b6 * 256 + b7, r)
  | _ => .error (.Io .UnexpectedEof)

/-- Big-endian bytes of the low `8*k` bits of `v`, as written by
`WriteBytesExt::write_u16/write_u64::<NetworkEndian>` (to_be_bytes). -/
def toBytesBE : Nat → Nat → List Nat
  | 0, _ => []
  | k + 1, v => (v / 256 ^ k) % 256 :: toBytesBE k v

/-- Model of the `DataFrameFlags` bitflags
(src/websocket-core/src/protocol/header.rs): FIN = 0x80, RSV1 = 0x40,
RSV2 = 0x20, RSV3 = 0x10.  The four Booleans are exactly the information a
`from_bits_truncate` value carries. -/
structure DataFrameFlags where
  fin : Bool
  rsv1 : Bool
  rsv2 : Bool
  rsv3 : Bool
deriving DecidableEq, Repr

/-- Raw bits of the flag set, as `bitflags` stores them (`flags.bits`). -/
def DataFrameFlags.bits (f : DataFrameFlags) : Nat :=
  (if f.fin then 0x80 else 0) ||| (if f.rsv1 then 0x40 else 0) |||
    (if f.rsv2 then 0x20 else 0) ||| (if f.rsv3 then 0x10 else 0)

/-- Model of `DataFrameFlags::from_bits_truncate`: keep the four known bits
of the byte, drop the rest. -/
def DataFrameFlags.from_bits_truncate (b : Nat) : DataFrameFlags :=
  ⟨b &&& 0x80 == 0x80, b &&& 0x40 == 0x40, b &&& 0x20 == 0x20, b &&& 0x10 == 0x10⟩

/-- A 4-byte masking key (`[u8; 4]`). -/
structure MaskKey where
  k0 : Nat
  k1 : Nat
  k2 : Nat
  k3 : Nat
deriving DecidableEq, Repr

/-- Key byte used at payload position `i` (`key[i % 4]`). -/
def MaskKey.byteAt (k : MaskKey) (i : Nat) : Nat :=
  match i % 4 with
  | 0 => k.k0
  | 1 => k.k1
  | 2 => k.k2
  | _ => k.k3

/-- XOR the bytes of `data` against the cycling key starting at position
`pos`.  This is the transform of both `mask_data` (which zips with
`mask.iter().cycle()`) and the streaming `DataMasker` writer (which starts
at `pos = 0` and advances `pos` by one per byte, mod 4)
in src/websocket-core/src/protocol/header.rs. -/
def maskBytesFrom (key : MaskKey) (pos : Nat) : List Nat → List Nat
  | [] => []
  | b :: rest => (b ^^^ key.byteAt pos) :: maskBytesFrom key (pos + 1) rest

/-- Model of `mask_data(mask, data)`. -/
def mask_data (key : MaskKey) (data : List Nat) : List Nat :=
  maskBytesFrom key 0 data

/-- Model of the `Opcode` enum (src/websocket-core/src/protocol/header.rs). -/
inductive Opcode where
  | Continuation
  | Text
  | Binary
  | NonControl1
  | NonControl2
  | NonControl3
  | NonControl4
  | NonControl5
  | Close
  | Ping
  | Pong
  | Control1
  | Control2
  | Control3
  | Control4
  | Control5
deriving DecidableEq, Repr

/-- The `Opcode as u8` cast: the discriminant 0–15. -/
def Opcode.toNat : Opcode → Nat
  | .Continuation => 0
  | .Text => 1
  | .Binary => 2
  | .NonControl1 => 3
  | .NonControl2 => 4
  | .NonControl3 => 5
  | .NonControl4 => 6
  | .NonControl5 => 7
  | .Close => 8
  | .Ping => 9
  | .Pong => 10
  | .Control1 => 11
  | .Control2 => 12
  | .Control3 => 13
  | .Control4 => 14
  | .Control5 => 15

/-- Model of `Opcode::new`: the opcode for a nibble, `none` when out of range. -/
def Opcode.new (op : Nat) : Option Opcode :=
  match op with
  | 0 => some .Continuation
  | 1 => some .Text
  | 2 => some .Binary
  | 3 => some .NonControl1
  | 4 => some .NonControl2
  | 5 => some .NonControl3
  | 6 => some .NonControl4
  | 7 => some .NonControl5
  | 8 => some .Close
  | 9 => some .Ping
  | 10 => some .Pong
  | 11 => some .Control1
  | 12 => some .Control2
  | 13 => some .Control3
  | 14 => some .Control4
  | 15 => some .Control5
  | _ => none

/-- Model of `DataFrameHeader` (src/websocket-core/src/protocol/header.rs):
flags, the 4-bit opcode as read from the wire, the optional masking key and
the 64-bit payload length. -/
structure DataFrameHeader where
  flags : DataFrameFlags
  opcode : Nat
  mask : Option MaskKey
  len : Nat
deriving DecidableEq, Repr

/-- Model of the `match byte1 & 0x7F` length decoding inside
`DataFrameHeader::read`: a 7-bit code ≤ 125 is the length itself, 126 takes
a 16-bit extension that must not fit in 7 bits, 127 takes a 64-bit
extension that must not fit in 16 bits (the code is always ≤ 127, so the
`unreachable!` arm needs no model). -/
def decodeLen (code : Nat) (rest : List Nat) : Except WebSocketError (Nat × List Nat) :=
  if code ≤ 125 then .ok (code, rest)
  else if code = 126 then
    match readU16BE rest with
    | .error e => .error e
    | .ok (len, r) =>
        if len ≤ 125 then .error (.DataFrameError "Invalid data frame length")
        else .ok (len, r)
  else
    match readU64BE rest with
    | .error e => .error e
    | .ok (len, r) =>
        if len ≤ 65535 then .error (.DataFrameError "Invalid data frame length")
        else .ok (len, r)

/-- Model of `<DataFrameHeader as FrameHeader>::read`
(src/websocket-core/src/protocol/header.rs, lines 40–96). -/
def DataFrameHeader.read (input : List Nat) : Except WebSocketError (DataFrameHeader × List Nat) :=
  match readU8 input with
  | .error e => .error e
  | .ok (byte0, r0) =>
    match readU8 r0 with
    | .error e => .error e
    | .ok (byte1, r1) =>
      let flags := DataFrameFlags.from_bits_truncate byte0
      let opcode := byte0 &&& 0x0F
      match decodeLen (byte1 &&& 0x7F) r1 with
      | .error e => .error e
      | .ok (len, r2) =>
        if 8 ≤ opcode ∧ 126 ≤ len then
          .error (.DataFrameError "Control frame length too long")
        else if 8 ≤ opcode ∧ ¬ flags.fin then
          .error (.ProtocolError "Illegal fragmented control frame")
        else if byte1 &&& 0x80 = 0x80 then
          match r2 with
          | m0 :: m1 :: m2 :: m3 :: r3 =>
              .ok ({ flags := flags, opcode := opcode,
                     mask := some ⟨m0, m1, m2, m3⟩, len := len }, r3)
          | _ => .error (.Io .UnexpectedEof)
        else
          .ok ({ flags := flags, opcode := opcode, mask := none, len := len }, r2)

/-- Model of `<DataFrameHeader as FrameHeader>::write`
(src/websocket-core/src/protocol/header.rs, lines 98–131), producing the
bytes emitted to the writer. -/
def DataFrameHeader.write (h : DataFrameHeader) : Except WebSocketError (List Nat) :=
  if 0xF < h.opcode then .error (.DataFrameError "Invalid data frame opcode")
  else if 8 ≤ h.opcode ∧ 126 ≤ h.len then
    .error (.DataFrameError "Control frame length too long")
  else
    .ok ([h.flags.bits ||| h.opcode,
          (if h.mask.isSome then 0x80 else 0x00) |||
            (if h.len ≤ 125 then h.len else if h.len ≤ 65535 then 126 else 127)]
      ++ (if 126 ≤ h.len ∧ h.len ≤ 65535 then toBytesBE 2 h.len
          else if 65535 < h.len then toBytesBE 8 h.len
          else [])
      ++ (match h.mask with
          | some k => [k.k0, k.k1, k.k2, k.k3]
          | none => []))

/-- Model of the concrete `DataFrame` struct
(src/websocket-core/src/dataframe.rs): FIN flag, the three RSV bits, the
opcode and the (always plaintext) payload. -/
structure DataFrame where
  finished : Bool
  reserved : Bool × Bool × Bool
  opcode : Opcode
  data : List Nat
deriving DecidableEq, Repr

/-- Model of `DataFrame::new`: reserved bits cleared. -/
def DataFrame.new (finished : Bool) (opcode : Opcode) (data : List Nat) : DataFrame :=
  { finished := finished, reserved := (false, false, false), opcode := opcode, data := data }

/-- Model of `DataFrame::read_dataframe_body`
(src/websocket-core/src/dataframe.rs, lines 35–73).  The
`Opcode::new(header.opcode).expect("Invalid header opcode!")` panic is
modelled as the `none` result; every other outcome is `some`. -/
def read_dataframe_body (header : DataFrameHeader) (body : List Nat)
    (should_be_masked : Bool) : Option (Except WebSocketError DataFrame) :=
  let finished := header.flags.fin
  let reserved := (header.flags.rsv1, header.flags.rsv2, header.flags.rsv3)
  match Opcode.new header.opcode with
  | none => none
  | some opcode =>
    match header.mask with
    | some mask =>
        if should_be_masked then
          some (.ok { finished := finished, reserved := reserved, opcode := opcode,
                      data := mask_data mask body })
        else some (.error (.DataFrameError "Expected unmasked data frame"))
    | none =>
        if should_be_masked then
          some (.error (.DataFrameError "Expected masked data frame"))
        else
          some (.ok { finished := finished, reserved := reserved, opcode := opcode,
                      data := body })

/-- Model of `DataFrame::read_dataframe`
(src/websocket-core/src/dataframe.rs, lines 76–89): read a header, then
exactly `len` payload bytes (`UnexpectedEof` when the stream is short),
then combine.  `none` is the propagated opcode panic, which
`read_dataframe_never_panics` below shows is unreachable. -/
def read_dataframe (input : List Nat) (should_be_masked : Bool) :
    Option (Except WebSocketError (DataFrame × List Nat)) :=
  match DataFrameHeader.read input with
  | .error e => some (.error e)
  | .ok (header, rest) =>
    if rest.length < header.len then some (.error (.Io .UnexpectedEof))
    else
      match read_dataframe_body header (rest.take header.len) should_be_masked with
      | none => none
      | some (.error e) => some (.error e)
      | some (.ok df) => some (.ok (df, rest.drop header.len))

/-- Model of `DataFrame::read_dataframe_with_limit`
(src/websocket-core/src/dataframe.rs, lines 92–108): like `read_dataframe`
but the declared length may not exceed `limit`. -/
def read_dataframe_with_limit (input : List Nat) (should_be_masked : Bool)
    (limit : Nat) : Option (Except WebSocketError (DataFrame × List Nat)) :=
  match DataFrameHeader.read input with
  | .error e => some (.error e)
  | .ok (header, rest) =>
    if limit < header.len then some (.error (.Io .InvalidData))
    else if rest.length < header.len then some (.error (.Io .UnexpectedEof))
    else
      match read_dataframe_body header (rest.take header.len) should_be_masked with
      | none => none
      | some (.error e) => some (.error e)
      | some (.ok df) => some (.ok (df, rest.drop header.len))

/-- Model of `<DataFrame as protocol::dataframe::DataFrame>::write_to`
(src/websocket-core/src/protocol/dataframe.rs, lines 181–220), for the
concrete `DataFrame`: build a header from the frame's flags and opcode;
with masking, the freshly generated random key (here a parameter, `some k`
for `mask = true`, `none` for `mask = false`) goes into the header and the
payload is streamed through the `DataMasker`; the produced bytes are the
header followed by the (possibly masked) payload. -/
def write_to (df : DataFrame) (maskKey : Option MaskKey) : Except WebSocketError (List Nat) :=
  let flags : DataFrameFlags :=
    { fin := df.finished, rsv1 := df.reserved.1, rsv2 := df.reserved.2.1,
      rsv3 := df.reserved.2.2 }
  let header : DataFrameHeader :=
    { flags := flags, opcode := df.opcode.toNat, mask := maskKey, len := df.data.length }
  match header.write with
  | .error e => .error e
  | .ok headerBytes =>
      .ok (headerBytes ++ match maskKey with
        | some k => mask_data k df.data
        | none => df.data)

/-- Model of the `Receiver` struct (src/websocket-server/src/receiver.rs):
the in-progress frame buffer and the configuration.  The two size limits
have already been clamped to `u32::MAX` by `new_with_limits`. -/
structure Receiver where
  buffer : List DataFrame
  mask : Bool
  max_dataframe_size : Nat
  max_message_size : Nat
deriving DecidableEq, Repr

/-- The `MAX_DATAFRAMES_IN_ONE_MESSAGE` constant (src/websocket-server/src/receiver.rs). -/
def MAX_DATAFRAMES_IN_ONE_MESSAGE : Nat := 1024 * 1024

/-- The `PER_DATAFRAME_OVERHEAD` constant (src/websocket-server/src/receiver.rs). -/
def PER_DATAFRAME_OVERHEAD : Nat := 64

/-- Model of the `while !finished` loop of `Receiver::recv_message_dataframes`
(src/websocket-server/src/receiver.rs, lines 77–113).  The reader is
abstracted as the list of frames that successive `recv_dataframe` calls
yield (reading from an exhausted reader is the EOF I/O error; the byte-level
parsing that produces each frame is `read_dataframe_with_limit` above).
Arguments are the receiver's `max_message_size`, the current `self.buffer`,
the running `current_message_length`, and the frames still to be read.  The
result carries the returned frame sequence, the final `self.buffer`, and
the frames left unread. -/
def recvLoop (maxMsg : Nat) (buffer : List DataFrame) (curr : Nat) :
    List DataFrame → Except WebSocketError (List DataFrame × List DataFrame × List DataFrame)
  | [] => .error (.Io .UnexpectedEof)
  | next :: rest =>
    if next.opcode = .Continuation then
      let curr' := curr + next.data.length + PER_DATAFRAME_OVERHEAD
      let buffer' := buffer ++ [next]
      if next.finished then .ok (buffer', [], rest)
      else if MAX_DATAFRAMES_IN_ONE_MESSAGE ≤ buffer'.length then
        .error (.ProtocolError "Exceeded count of data frames in one WebSocket message")
      else if maxMsg ≤ curr' then
        .error (.ProtocolError "Exceeded maximum WebSocket message size")
      else recvLoop maxMsg buffer' curr' rest
    else if 8 ≤ next.opcode.toNat then
      .ok ([next], buffer, rest)
    else .error (.ProtocolError "Unexpected data frame opcode")

/-- Model of `Receiver::recv_message_dataframes`
(src/websocket-server/src/receiver.rs, lines 55–114).  `current_message_length`
starts as the sum of the payload lengths of the already-buffered frames;
when the buffer is empty the first frame is read and, unless it is a lone
finished frame, the loop runs; when the buffer is non-empty the loop runs
directly with `finished = false`.  Returns (frame sequence, new buffer,
unread frames). -/
def recv_message_dataframes (r : Receiver) (frames : List DataFrame) :
    Except WebSocketError (List DataFrame × List DataFrame × List DataFrame) :=
  let curr := (r.buffer.map (fun x => x.data.length)).sum
  if r.buffer.isEmpty then
    match frames with
    | [] => .error (.Io .UnexpectedEof)
    | first :: rest =>
      if first.opcode = .Continuation then
        .error (.ProtocolError "Unexpected continuation data frame opcode")
      else
        let curr' := curr + first.data.length + PER_DATAFRAME_OVERHEAD
        if first.finished then .ok ([first], [], rest)
        else recvLoop r.max_message_size [first] curr' rest
  else
    recvLoop r.max_message_size r.buffer curr frames

/-- Model of the `Type` enum (src/websocket-core/src/protocol/message.rs);
named `MessageType` because `Type` is not a usable Lean identifier. -/
inductive MessageType where
  | Text
  | Binary
  | Ping
  | Pong
  | Close
deriving DecidableEq, Repr

/-- Model of the owned form of `Message` (src/websocket-core/src/message.rs):
type, optional close status code, payload bytes. -/
structure Message where
  opcode : MessageType
  cd_status_code : Option Nat
  payload : List Nat
deriving DecidableEq, Repr

/-- Model of `Message::binary`. -/
def Message.binary (data : List Nat) : Message :=
  { opcode := .Binary, cd_status_code := none, payload := data }

/-- Model of `Message::close`: empty payload, no status code. -/
def Message.close : Message :=
  { opcode := .Close, cd_status_code := none, payload := [] }

/-- Model of `Message::close_because`. -/
def Message.close_because (code : Nat) (reason : List Nat) : Message :=
  { opcode := .Close, cd_status_code := some code, payload := reason }

/-- Model of `Message::ping`. -/
def Message.ping (data : List Nat) : Message :=
  { opcode := .Ping, cd_status_code := none, payload := data }

/-- Model of `Message::pong`. -/
def Message.pong (data : List Nat) : Message :=
  { opcode := .Pong, cd_status_code := none, payload := data }

/-- Is `c` a UTF-8 continuation byte (0x80–0xBF)? -/
def contByte (c : Nat) : Bool :=
  0x80 ≤ c && c ≤ 0xBF

/-- UTF-8 validity of a byte sequence, as checked by Rust's
`core::str::from_utf8` (RFC 3629): ASCII is one byte; C2–DF lead a 2-byte
sequence; E0/E1–EC/ED/EE–EF lead 3-byte sequences whose second byte excludes
overlong forms (E0: A0–BF) and surrogates (ED: 80–9F); F0/F1–F3/F4 lead
4-byte sequences whose second byte excludes overlong forms (F0: 90–BF) and
values above U+10FFFF (F4: 80–8F); everything else is invalid. -/
def validUtf8 : List Nat → Bool
  | [] => true
  | b :: rest =>
    if b ≤ 0x7F then validUtf8 rest
    else if b < 0xC2 then false
    else if b ≤ 0xDF then
      match rest with
      | c :: r => contByte c && validUtf8 r
      | [] => false
    else if b ≤ 0xEF then
      match rest with
      | c :: d :: r =>
          (if b = 0xE0 then 0xA0 ≤ c && c ≤ 0xBF
           else if b = 0xED then 0x80 ≤ c && c ≤ 0x9F
           else contByte c) && contByte d && validUtf8 r
      | _ => false
    else if b ≤ 0xF4 then
      match rest with
      | c :: d :: e :: r =>
          (if b = 0xF0 then 0x90 ≤ c && c ≤ 0xBF
           else if b = 0xF4 then 0x80 ≤ c && c ≤ 0x8F
           else contByte c) && contByte d && contByte e && validUtf8 r
      | _ => false
    else false

/-- Model of `utils::bytes_to_string` (src/websocket-core/src/utils.rs):
UTF-8 validation via `from_utf8`, returning the byte content of the string
(strings are modelled by their bytes). -/
def bytes_to_string (data : List Nat) : Except WebSocketError (List Nat) :=
  if validUtf8 data then .ok data else .error .Utf8Error

/-- Model of the `for (i, dataframe) in frames.into_iter().enumerate()` loop
of `Message::from_dataframes` (src/websocket-core/src/message.rs, lines
183–195): every frame after the first must be a continuation, no frame may
carry reserved bits, and the payloads are concatenated in order.  `i` is
the enumeration index of the first frame of `fs`. -/
def collectPayloads (i : Nat) : List DataFrame → Except WebSocketError (List Nat)
  | [] => .ok []
  | f :: fs =>
    if 0 < i ∧ f.opcode.toNat ≠ Opcode.toNat .Continuation then
      .error (.ProtocolError "Unexpected non-continuation data frame")
    else if f.reserved ≠ (false, false, false) then
      .error (.ProtocolError "Unsupported reserved bits received")
    else
      match collectPayloads (i + 1) fs with
      | .error e => .error e
      | .ok tail => .ok (f.data ++ tail)

/-- Model of `<Message as protocol::message::Message>::from_dataframes`
(src/websocket-core/src/message.rs, lines 169–224), instantiated at the
concrete `DataFrame` (whose trait methods are: `opcode()` = the discriminant,
`reserved()` = the RSV triple, `take_payload()` = the payload). -/
def from_dataframes (frames : List DataFrame) : Except WebSocketError Message :=
  match frames with
  | [] => .error (.ProtocolError "No dataframes provided")
  | first :: _ =>
    let opcode := Opcode.new first.opcode.toNat
    match collectPayloads 0 frames with
    | .error e => .error e
    | .ok data =>
      if opcode = some .Text ∧ validUtf8 data = false then .error .Utf8Error
      else
        match opcode with
        | some .Text => .ok { opcode := .Text, cd_status_code := none, payload := data }
        | some .Binary => .ok (Message.binary data)
        | some .Close =>
          if data ≠ [] then
            match data with
            | a :: b :: rest2 =>
                match bytes_to_string rest2 with
                | .error e => .error e
                | .ok reason => .ok (Message.close_because (a * 256 + b) reason)
            | _ => .error (.Io .UnexpectedEof)
          else .ok Message.close
        | some .Ping => .ok (Message.ping data)
        | some .Pong => .ok (Message.pong data)
        | _ => .error (.ProtocolError "Unsupported opcode received")

/-- Value of a character in the base64url alphabet of RFC 4648 §5
(A–Z, a–z, 0–9, `-`, `_`), `none` for every other character including the
padding character `=`.  This is the alphabet of the `base64` crate's
`general_purpose::URL_SAFE_NO_PAD` engine used throughout
src/websocket-core/src/sec_header.rs. -/
def b64urlValue (c : Char) : Option Nat :=
  let n := c.toNat
  if 65 ≤ n ∧ n ≤ 90 then some (n - 65)
  else if 97 ≤ n ∧ n ≤ 122 then some (n - 71)
  else if 48 ≤ n ∧ n ≤ 57 then some (n + 4)
  else if n = 45 then some 62
  else if n = 95 then some 63
  else none

/-- Character for a 6-bit value in the base64url alphabet. -/
def b64urlChar (n : Nat) : Char :=
  Char.ofNat
    (if n < 26 then n + 65
     else if n < 52 then n + 71
     else if n < 62 then n - 4
     else if n = 62 then 45
     else 95)

/-- Modelled from the dependency: the `base64` crate's
`URL_SAFE_NO_PAD.encode` — bytes taken three at a time; a final group of
one byte yields two characters and of two bytes yields three characters;
no padding is appended. -/
def b64urlEncode : List Nat → List Char
  | [] => []
  | [a] => [b64urlChar (a / 4), b64urlChar (a % 4 * 16)]
  | [a, b] => [b64urlChar (a / 4), b64urlChar (a % 4 * 16 + b / 16), b64urlChar (b % 16 * 4)]
  | a :: b :: c :: rest =>
      b64urlChar (a / 4) :: b64urlChar (a % 4 * 16 + b / 16) ::
        b64urlChar (b % 16 * 4 + c / 64) :: b64urlChar (c % 64) :: b64urlEncode rest

/-- Modelled from the dependency: the `base64` crate's
`URL_SAFE_NO_PAD.decode` — characters taken four at a time, each mapped
through the base64url alphabet (anything else, padding included, is a
decode error); a final group of two or three characters yields one or two
bytes provided the unused trailing bits are zero; a final group of one
character is a decode error. -/
def b64urlDecode : List Char → Option (List Nat)
  | [] => some []
  | [_] => none
  | [c1, c2] =>
    match b64urlValue c1, b64urlValue c2 with
    | some a, some b => if b % 16 = 0 then some [a * 4 + b / 16] else none
    | _, _ => none
  | [c1, c2, c3] =>
    match b64urlValue c1, b64urlValue c2, b64urlValue c3 with
    | some a, some b, some c =>
        if c % 4 = 0 then some [a * 4 + b / 16, b % 16 * 16 + c / 4] else none
    | _, _, _ => none
  | c1 :: c2 :: c3 :: c4 :: rest =>
    match b64urlValue c1, b64urlValue c2, b64urlValue c3, b64urlValue c4 with
    | some a, some b, some c, some d =>
        match b64urlDecode rest with
        | some tail => some ((a * 4 + b / 16) :: (b % 16 * 16 + c / 4) :: (c % 4 * 64 + d) :: tail)
        | none => none
    | _, _, _, _ => none

/-- Model of `WebSocketKey` (src/websocket-core/src/sec_header.rs): 16 key
bytes. -/
structure WebSocketKey where
  bytes : List Nat
  len16 : bytes.length = 16
deriving DecidableEq

/-- Model of `<WebSocketKey as FromStr>::from_str`
(src/websocket-core/src/sec_header.rs, lines 19–39): base64url-decode with
the `URL_SAFE_NO_PAD` engine, then require exactly 16 bytes. -/
def WebSocketKey.from_str (key : String) : Except WebSocketError WebSocketKey :=
  match b64urlDecode key.data with
  | some vec =>
    if h : vec.length = 16 then .ok ⟨vec, h⟩
    else .error (.ProtocolError "Sec-WebSocket-Key must be 16 bytes")
  | none => .error (.ProtocolError "Invalid Sec-WebSocket-Accept")

/-- Model of `WebSocketKey::serialize`: `URL_SAFE_NO_PAD` encoding of the
16 key bytes. -/
def WebSocketKey.serialize (k : WebSocketKey) : List Char :=
  b64urlEncode k.bytes

/-- Model of `WebSocketAccept` (src/websocket-core/src/sec_header.rs): the
20-byte SHA-1 digest computed by `WebSocketAccept::new`. -/
structure WebSocketAccept where
  bytes : List Nat
  len20 : bytes.length = 20
deriving DecidableEq

/-- Model of `WebSocketAccept::serialize`: `URL_SAFE_NO_PAD` encoding of
the 20 digest bytes. -/
def WebSocketAccept.serialize (a : WebSocketAccept) : List Char :=
  b64urlEncode a.bytes

/-! Auxiliary lemmas about the byte-level encodings. -/

theorem DataFrameFlags.byte0_spec (f : DataFrameFlags) (op : Nat) (hop : op < 16) :
    DataFrameFlags.from_bits_truncate (f.bits ||| op) = f ∧ (f.bits ||| op) &&& 0x0F = op := by
  obtain ⟨fin, r1, r2, r3⟩ := f
  cases fin <;> cases r1 <;> cases r2 <;> cases r3 <;> interval_cases op <;>
    exact ⟨rfl, rfl⟩

theorem nat_and_127_eq_mod (x : Nat) : x &&& 127 = x % 128 := by
  have h := Nat.and_pow_two_sub_one_eq_mod x 7
  norm_num at h
  exact h

theorem nat_or_128 (c : Nat) (h : c < 128) : 128 ||| c = 128 + c := by
  have h2 := Nat.mul_add_lt_is_or (i := 7) (b := c) (by norm_num; omega) 1
  norm_num at h2
  omega

theorem nat_and_128_split (n : Nat) : n &&& 128 = if n / 128 % 2 = 1 then 128 else 0 := by
  have h := Nat.and_two_pow n 7
  rw [Nat.testBit_to_div_mod] at h
  norm_num at h ⊢
  by_cases hd : n / 128 % 2 = 1 <;> simp [hd] at h ⊢ <;> omega

theorem byte1_len (m : Bool) (c : Nat) (h : c ≤ 127) :
    ((if m then 0x80 else 0x00) ||| c) &&& 0x7F = c := by
  cases m
  · simp only [Bool.false_eq_true, if_false, Nat.zero_or]
    rw [nat_and_127_eq_mod]
    omega
  · simp only [if_true]
    rw [nat_or_128 c (by omega), nat_and_127_eq_mod]
    omega

theorem byte1_mask (m : Bool) (c : Nat) (h : c ≤ 127) :
    (((if m then 0x80 else 0x00) ||| c) &&& 0x80 = 0x80) = (m = true) := by
  cases m
  · simp only [Bool.false_eq_true, if_false, Nat.zero_or]
    rw [nat_and_128_split]
    have hc : c / 128 = 0 := by omega
    simp [hc]
  · simp only [if_true]
    rw [nat_or_128 c (by omega), nat_and_128_split]
    have hc : (128 + c) / 128 = 1 := by omega
    simp [hc]

theorem readU16BE_toBytesBE (v : Nat) (h : v < 65536) (r : List Nat) :
    readU16BE (toBytesBE 2 v ++ r) = .ok (v, r) := by
  simp only [toBytesBE, readU16BE, List.cons_append, List.nil_append]
  norm_num
  omega

theorem readU64BE_toBytesBE (v : Nat) (h : v < 2 ^ 64) (r : List Nat) :
    readU64BE (toBytesBE 8 v ++ r) = .ok (v, r) := by
  simp only [toBytesBE, readU64BE, List.cons_append, List.nil_append]
  norm_num
  omega

theorem maskBytesFrom_length (key : MaskKey) (pos : Nat) (l : List Nat) :
    (maskBytesFrom key pos l).length = l.length := by
  induction l generalizing pos with
  | nil => rfl
  | cons b rest ih => simp [maskBytesFrom, ih]

theorem maskBytesFrom_involutive (key : MaskKey) (pos : Nat) (l : List Nat) :
    maskBytesFrom key pos (maskBytesFrom key pos l) = l := by
  induction l generalizing pos with
  | nil => rfl
  | cons b rest ih =>
      simp [maskBytesFrom, ih, Nat.xor_cancel_right]

theorem mask_data_length (key : MaskKey) (l : List Nat) :
    (mask_data key l).length = l.length :=
  maskBytesFrom_length key 0 l

theorem mask_data_involutive (key : MaskKey) (l : List Nat) :
    mask_data key (mask_data key l) = l :=
  maskBytesFrom_involutive key 0 l

theorem Opcode.toNat_lt (op : Opcode) : op.toNat < 16 := by
  cases op <;> simp [Opcode.toNat]

theorem Opcode.new_toNat (op : Opcode) : Opcode.new op.toNat = some op := by
  cases op <;> rfl

theorem Opcode.new_isSome (n : Nat) (h : n < 16) : (Opcode.new n).isSome := by
  interval_cases n <;> rfl

theorem nat_and_127_of_le (c : Nat) (h : c ≤ 127) : c &&& 127 = c := by
  rw [nat_and_127_eq_mod]
  omega

theorem nat_and_128_of_le (c : Nat) (h : c ≤ 127) : c &&& 128 = 0 := by
  rw [nat_and_128_split]
  have hc : c / 128 = 0 := by omega
  simp [hc]

theorem nat_or_128_and_127 (c : Nat) (h : c ≤ 127) : (128 ||| c) &&& 127 = c := by
  rw [nat_or_128 c (by omega), nat_and_127_eq_mod]
  omega

theorem nat_or_128_and_128 (c : Nat) (h : c ≤ 127) : (128 ||| c) &&& 128 = 128 := by
  rw [nat_or_128 c (by omega), nat_and_128_split]
  have hc : (128 + c) / 128 = 1 := by omega
  simp [hc]

/-- A header accepted by `write` parses back to itself: `read` run on the
written bytes followed by any continuation of the stream returns the header
and leaves the continuation unread.  The hypotheses are the conditions
under which `write` succeeds and `read` does not reject the header: a 4-bit
opcode, control frames short and final, and a length that fits the u64
length field. -/
theorem DataFrameHeader.write_read (h : DataFrameHeader) (rest : List Nat)
    (hop : h.opcode < 16) (hctl : 8 ≤ h.opcode → h.len ≤ 125)
    (hfin : 8 ≤ h.opcode → h.flags.fin = true) (hlen : h.len < 2 ^ 64) :
    ∃ bs, h.write = .ok bs ∧ DataFrameHeader.read (bs ++ rest) = .ok (h, rest) := by
  obtain ⟨flags, opcode, mask, len⟩ := h
  simp only at hop hctl hfin hlen
  have hnotctl : ¬ (8 ≤ opcode ∧ 126 ≤ len) := by
    rintro ⟨h8, h126⟩
    have := hctl h8
    omega
  have hnofrag : ¬ (8 ≤ opcode ∧ ¬ flags.fin = true) := by
    rintro ⟨h8, hf⟩
    exact hf (hfin h8)
  have hnofrag2 : ¬ (8 ≤ opcode ∧ flags.fin = false) := by
    rintro ⟨h8, hf⟩
    rw [hfin h8] at hf
    exact absurd hf (by decide)
  have hbyte0 := DataFrameFlags.byte0_spec flags opcode hop
  cases mask with
  | none =>
    by_cases h125 : len ≤ 125
    · refine ⟨[flags.bits ||| opcode, 0 ||| len], ?_, ?_⟩
      · simp only [DataFrameHeader.write, Option.isSome_none, Bool.false_eq_true, if_false]
        rw [if_neg (by omega : ¬ 0xF < opcode), if_neg hnotctl, if_pos h125,
          if_neg (by omega : ¬ (126 ≤ len ∧ len ≤ 65535)), if_neg (by omega : ¬ 65535 < len)]
        simp
      · simp only [List.cons_append, List.nil_append, DataFrameHeader.read, readU8, Nat.zero_or]
        rw [hbyte0.1, hbyte0.2, nat_and_127_of_le len (by omega)]
        simp only [decodeLen, if_pos h125]
        simp only [if_neg hnotctl, if_neg hnofrag,
          if_neg (by rw [nat_and_128_of_le len (by omega)]; omega : ¬ len &&& 128 = 128)]
    · by_cases h65535 : len ≤ 65535
      · refine ⟨[flags.bits ||| opcode, 0 ||| 126] ++ toBytesBE 2 len, ?_, ?_⟩
        · simp only [DataFrameHeader.write, Option.isSome_none, Bool.false_eq_true, if_false]
          rw [if_neg (by omega : ¬ 0xF < opcode), if_neg hnotctl, if_neg h125, if_pos h65535,
            if_pos (by omega : 126 ≤ len ∧ len ≤ 65535)]
          simp
        · simp only [List.cons_append, List.nil_append, List.append_assoc,
            DataFrameHeader.read, readU8, Nat.zero_or]
          rw [hbyte0.1, hbyte0.2, (by decide : (126 : Nat) &&& 127 = 126)]
          simp only [decodeLen]
          norm_num
          rw [readU16BE_toBytesBE len (by omega) rest]
          simp only [if_neg h125, if_neg hnotctl, if_neg hnofrag2,
            if_neg (by decide : ¬ ((126 : Nat) &&& 128 = 128))]
      · refine ⟨[flags.bits ||| opcode, 0 ||| 127] ++ toBytesBE 8 len, ?_, ?_⟩
        · simp only [DataFrameHeader.write, Option.isSome_none, Bool.false_eq_true, if_false]
          rw [if_neg (by omega : ¬ 0xF < opcode), if_neg hnotctl, if_neg h125, if_neg h65535,
            if_neg (by omega : ¬ (126 ≤ len ∧ len ≤ 65535)), if_pos (by omega : 65535 < len)]
          simp
        · simp only [List.cons_append, List.nil_append, List.append_assoc,
            DataFrameHeader.read, readU8, Nat.zero_or]
          rw [hbyte0.1, hbyte0.2, (by decide : (127 : Nat) &&& 127 = 127)]
          simp only [decodeLen]
          norm_num
          rw [readU64BE_toBytesBE len hlen rest]
          simp only [if_neg h65535, if_neg hnotctl, if_neg hnofrag2,
            if_neg (by decide : ¬ ((127 : Nat) &&& 128 = 128))]
  | some k =>
    by_cases h125 : len ≤ 125
    · refine ⟨[flags.bits ||| opcode, 128 ||| len] ++ [k.k0, k.k1, k.k2, k.k3], ?_, ?_⟩
      · simp only [DataFrameHeader.write, Option.isSome_some, if_true]
        rw [if_neg (by omega : ¬ 0xF < opcode), if_neg hnotctl, if_pos h125,
          if_neg (by omega : ¬ (126 ≤ len ∧ len ≤ 65535)), if_neg (by omega : ¬ 65535 < len)]
        simp
      · simp only [List.cons_append, List.nil_append, List.append_assoc,
          DataFrameHeader.read, readU8]
        rw [hbyte0.1, hbyte0.2, nat_or_128_and_127 len (by omega)]
        simp only [decodeLen, if_pos h125]
        simp only [if_neg hnotctl, if_neg hnofrag,
          if_pos (nat_or_128_and_128 len (by omega))]
    · by_cases h65535 : len ≤ 65535
      · refine ⟨[flags.bits ||| opcode, 128 ||| 126] ++ toBytesBE 2 len ++
            [k.k0, k.k1, k.k2, k.k3], ?_, ?_⟩
        · simp only [DataFrameHeader.write, Option.isSome_some, if_true]
          rw [if_neg (by omega : ¬ 0xF < opcode), if_neg hnotctl, if_neg h125, if_pos h65535,
            if_pos (by omega : 126 ≤ len ∧ len ≤ 65535)]
        · simp only [List.cons_append, List.nil_append, List.append_assoc,
            DataFrameHeader.read, readU8]
          rw [hbyte0.1, hbyte0.2, (by decide : (128 ||| 126 : Nat) &&& 127 = 126)]
          simp only [decodeLen]
          norm_num
          rw [readU16BE_toBytesBE len (by omega)]
          simp only [if_neg h125, if_neg hnotctl, if_neg hnofrag2,
            if_pos (by decide : (128 ||| 126 : Nat) &&& 128 = 128), List.cons_append]
      · refine ⟨[flags.bits ||| opcode, 128 ||| 127] ++ toBytesBE 8 len ++
            [k.k0, k.k1, k.k2, k.k3], ?_, ?_⟩
        · simp only [DataFrameHeader.write, Option.isSome_some, if_true]
          rw [if_neg (by omega : ¬ 0xF < opcode), if_neg hnotctl, if_neg h125, if_neg h65535,
            if_neg (by omega : ¬ (126 ≤ len ∧ len ≤ 65535)), if_pos (by omega : 65535 < len)]
        · simp only [List.cons_append, List.nil_append, List.append_assoc,
            DataFrameHeader.read, readU8]
          rw [hbyte0.1, hbyte0.2, (by decide : (128 ||| 127 : Nat) &&& 127 = 127)]
          simp only [decodeLen]
          norm_num
          rw [readU64BE_toBytesBE len hlen]
          simp only [if_neg h65535, if_neg hnotctl, if_neg hnofrag2,
            if_pos (by decide : (128 ||| 127 : Nat) &&& 128 = 128), List.cons_append]

/-- A frame accepted by `write_to` is recovered exactly by `read_dataframe`
on the produced bytes, with the expectation flag matching the presence of
the masking key. -/
theorem write_to_read_dataframe (df : DataFrame) (key : Option MaskKey)
    (hlen : df.data.length < 2 ^ 64)
    (hctl : 8 ≤ df.opcode.toNat → df.data.length ≤ 125)
    (hfin : 8 ≤ df.opcode.toNat → df.finished = true) :
    ∃ bs, write_to df key = .ok bs ∧
      read_dataframe bs key.isSome = some (.ok (df, [])) := by
  obtain ⟨finished, reserved, op, data⟩ := df
  simp only at hlen hctl hfin
  obtain ⟨r1, r2, r3⟩ := reserved
  cases key with
  | none =>
    obtain ⟨bs0, hw, hr⟩ := DataFrameHeader.write_read
      { flags := { fin := finished, rsv1 := r1, rsv2 := r2, rsv3 := r3 },
        opcode := op.toNat, mask := none, len := data.length }
      data (Opcode.toNat_lt op) hctl hfin hlen
    refine ⟨bs0 ++ data, ?_, ?_⟩
    · simp only [write_to]
      rw [hw]
    · simp only [read_dataframe, Option.isSome_none]
      rw [hr]
      dsimp only
      rw [if_neg (by omega)]
      simp only [read_dataframe_body, Opcode.new_toNat]
      rw [List.take_of_length_le (by omega), List.drop_eq_nil_of_le (by omega)]
      rfl
  | some k =>
    obtain ⟨bs0, hw, hr⟩ := DataFrameHeader.write_read
      { flags := { fin := finished, rsv1 := r1, rsv2 := r2, rsv3 := r3 },
        opcode := op.toNat, mask := some k, len := data.length }
      (mask_data k data) (Opcode.toNat_lt op) hctl hfin hlen
    refine ⟨bs0 ++ mask_data k data, ?_, ?_⟩
    · simp only [write_to]
      rw [hw]
    · have hplen := mask_data_length k data
      simp only [read_dataframe, Option.isSome_some]
      rw [hr]
      dsimp only
      rw [if_neg (by omega)]
      simp only [read_dataframe_body, Opcode.new_toNat]
      rw [List.take_of_length_le (by omega), List.drop_eq_nil_of_le (by omega),
        mask_data_involutive]
      rfl

/-- Every header `read` returns has a 4-bit opcode: it is computed as
`byte0 & 0x0F`. -/
theorem DataFrameHeader.read_opcode_lt (input : List Nat) (h : DataFrameHeader)
    (r : List Nat) (hok : DataFrameHeader.read input = .ok (h, r)) : h.opcode < 16 := by
  match input with
  | [] => simp [DataFrameHeader.read, readU8] at hok
  | [b0] => simp [DataFrameHeader.read, readU8] at hok
  | b0 :: b1 :: rest =>
    have hand : b0 &&& 15 < 16 := by
      have := Nat.and_le_right (n := b0) (m := 15)
      omega
    simp only [DataFrameHeader.read, readU8] at hok
    rcases hdl : decodeLen (b1 &&& 127) rest with e | p <;> rw [hdl] at hok
    · simp at hok
    · obtain ⟨len, r2⟩ := p
      repeat' split at hok
      all_goals cases hok
      all_goals exact hand

/-- `read_dataframe_body` can only panic when the header's opcode nibble has
no `Opcode`; with a 4-bit opcode it always returns `some`. -/
theorem read_dataframe_body_ne_none (header : DataFrameHeader) (body : List Nat)
    (m : Bool) (hop : header.opcode < 16) :
    read_dataframe_body header body m ≠ none := by
  obtain ⟨flags, opc, mask, len⟩ := header
  simp only at hop
  rcases hn : Opcode.new opc with _ | op
  · have hsome := Opcode.new_isSome opc hop
    rw [hn] at hsome
    simp at hsome
  · cases mask <;> simp only [read_dataframe_body, hn] <;> split <;> simp

/-- C2: the claim as stated is false: for a control opcode (here Ping) and a
payload length from the claimed set that is ≥ 126 (here 126), `write_to`
does not succeed at all — the header write rejects the frame with
`DataFrameError("Control frame length too long")` — so no written bytes
exist to read back. -/
theorem claim2_roundtrip_counterexample :
    write_to ⟨true, (false, false, false), .Ping, List.replicate 126 0⟩ none =
      .error (.DataFrameError "Control frame length too long") := by
  simp [write_to, DataFrameHeader.write, Opcode.toNat]

/-- C2 (amended): for every opcode and payload — of any length that fits the
u64 length field, which covers the claimed set {0, 1, 125, 126, 127, 65535,
65536, 10^6} — except that a control opcode (≥ 8) requires payload length
≤ 125: a finished frame written via `write_to` with a mask key is read back
by `read_dataframe` with `should_be_masked = true` as exactly the original
frame (opcode, FIN flag and plaintext payload), and likewise without mask
and `should_be_masked = false`. -/
theorem claim2_roundtrip_amended (op : Opcode) (data : List Nat) (k : MaskKey)
    (hlen : data.length < 2 ^ 64) (hctl : 8 ≤ op.toNat → data.length ≤ 125) :
    (∃ bs, write_to ⟨true, (false, false, false), op, data⟩ (some k) = .ok bs ∧
        read_dataframe bs true =
          some (.ok (⟨true, (false, false, false), op, data⟩, []))) ∧
    (∃ bs, write_to ⟨true, (false, false, false), op, data⟩ none = .ok bs ∧
        read_dataframe bs false =
          some (.ok (⟨true, (false, false, false), op, data⟩, []))) := by
  constructor
  · simpa using write_to_read_dataframe
      ⟨true, (false, false, false), op, data⟩ (some k) hlen hctl (fun _ => rfl)
  · simpa using write_to_read_dataframe
      ⟨true, (false, false, false), op, data⟩ none hlen hctl (fun _ => rfl)

/-- Witness for the amended C2: a concrete masked and unmasked roundtrip of
a Text frame with payload [7, 8, 9] and key (1, 2, 3, 4). -/
theorem claim2_roundtrip_amended_witness :
    ([7, 8, 9] : List Nat).length < 2 ^ 64 ∧
    (8 ≤ Opcode.toNat .Text → ([7, 8, 9] : List Nat).length ≤ 125) ∧
    ((∃ bs, write_to ⟨true, (false, false, false), .Text, [7, 8, 9]⟩
          (some ⟨1, 2, 3, 4⟩) = .ok bs ∧
        read_dataframe bs true =
          some (.ok (⟨true, (false, false, false), .Text, [7, 8, 9]⟩, []))) ∧
     (∃ bs, write_to ⟨true, (false, false, false), .Text, [7, 8, 9]⟩ none = .ok bs ∧
        read_dataframe bs false =
          some (.ok (⟨true, (false, false, false), .Text, [7, 8, 9]⟩, [])))) :=
  ⟨by norm_num, by decide,
   claim2_roundtrip_amended .Text [7, 8, 9] ⟨1, 2, 3, 4⟩ (by norm_num) (by decide)⟩

/-- C3: the code bug.  `DataFrameHeader::read` accepts an 8-byte extended
length whose 64-bit big-endian value has its top bit set (here 2^63),
returning it as a parsed header, although the claim — and the code's own
wire-format documentation in src/websocket-core/src/protocol/dataframe.rs,
which limits the 64-bit length to 0x0000000000000000–0x7FFFFFFFFFFFFFFF —
requires rejection with a DataFrameError. -/
theorem claim3_top_bit_accepted :
    DataFrameHeader.read [0x81, 0x7F, 0x80, 0, 0, 0, 0, 0, 0, 0] =
      .ok (⟨⟨true, false, false, false⟩, 1, none, 0x8000000000000000⟩, []) := by decide

/-- C9: every header produced by `DataFrameHeader.read` has a 4-bit opcode
(`byte0 & 0x0F`), so `Opcode::new` on it is always `some` and the
`expect("Invalid header opcode!")` panic (modelled as the `none` result of
`read_dataframe` / `read_dataframe_with_limit`) is unreachable. -/
theorem claim9_opcode_panic_unreachable :
    (∀ input h r, DataFrameHeader.read input = .ok (h, r) →
        h.opcode ≤ 15 ∧ (Opcode.new h.opcode).isSome) ∧
    (∀ input m, read_dataframe input m ≠ none) ∧
    (∀ input m limit, read_dataframe_with_limit input m limit ≠ none) := by
  refine ⟨?_, ?_, ?_⟩
  · intro input h r hok
    have hlt := DataFrameHeader.read_opcode_lt input h r hok
    exact ⟨by omega, Opcode.new_isSome _ hlt⟩
  · intro input m
    unfold read_dataframe
    rcases hh : DataFrameHeader.read input with e | p
    · simp
    · obtain ⟨hd, rest⟩ := p
      have hlt := DataFrameHeader.read_opcode_lt input hd rest hh
      dsimp only
      split
      · simp
      · rcases hb : read_dataframe_body hd (rest.take hd.len) m with _ | er
        · exact absurd hb (read_dataframe_body_ne_none hd _ m hlt)
        · cases er <;> simp
  · intro input m limit
    unfold read_dataframe_with_limit
    rcases hh : DataFrameHeader.read input with e | p
    · simp
    · obtain ⟨hd, rest⟩ := p
      have hlt := DataFrameHeader.read_opcode_lt input hd rest hh
      dsimp only
      split
      · simp
      · split
        · simp
        · rcases hb : read_dataframe_body hd (rest.take hd.len) m with _ | er
          · exact absurd hb (read_dataframe_body_ne_none hd _ m hlt)
          · cases er <;> simp

/-- Witness for C9: a concrete parsed header has a 4-bit opcode with a
defined `Opcode`. -/
theorem claim9_opcode_panic_unreachable_witness :
    (⟨⟨true, false, false, false⟩, 1, none, 0⟩ : DataFrameHeader).opcode ≤ 15 ∧
    (Opcode.new (⟨⟨true, false, false, false⟩, 1, none, 0⟩ : DataFrameHeader).opcode).isSome :=
  claim9_opcode_panic_unreachable.1 [0x81, 0x00]
    ⟨⟨true, false, false, false⟩, 1, none, 0⟩ [] (by decide)

/-- C4: the claim as stated is false: with `max_message_size = 129`, after
appending a non-final continuation (empty payload) to a message opened by a
non-final Text frame with a 1-byte payload, the accumulated size is exactly
1 + 0 + 2·64 = 129 — within the claimed "at most the configured max
message size" bound — yet the call returns
`ProtocolError("Exceeded maximum WebSocket message size")`: the code's
check is `>=`, i.e. strict. -/
theorem claim4_limits_counterexample :
    recv_message_dataframes ⟨[], false, 1000, 129⟩
        [⟨false, (false, false, false), .Text, [0]⟩,
         ⟨false, (false, false, false), .Continuation, []⟩] =
      .error (.ProtocolError "Exceeded maximum WebSocket message size") ∧
    ([0] : List Nat).length + ([] : List Nat).length +
      2 * PER_DATAFRAME_OVERHEAD = 129 := by
  constructor
  · decide
  · decide

/-- C4 (amended): in the loop of `recv_message_dataframes`, after appending
a non-final continuation frame (the checks do not run after the message's
first frame, nor when the appended frame is final): the frame count of the
current message must be strictly below MAX_DATAFRAMES_IN_ONE_MESSAGE =
1,048,576 — at or above it the call returns
`ProtocolError("Exceeded count of data frames in one WebSocket message")` —
and the accumulated size (the running `current_message_length`: payload
lengths plus a 64-byte per-frame overhead for the frames consumed by this
call, on top of the payload lengths of previously buffered frames) must be
strictly below the configured max message size — at or above it the call
returns `ProtocolError("Exceeded maximum WebSocket message size")`.  In
both error cases the equations hold for every tail of the reader, so no
further frames are read; when both strict bounds hold the loop continues
with the appended buffer.  The last conjunct connects the loop to
`recv_message_dataframes` for a fresh message. -/
theorem claim4_limits_amended (maxMsg : Nat) (buffer : List DataFrame) (curr : Nat)
    (f : DataFrame) (rest : List DataFrame)
    (hcont : f.opcode = .Continuation) (hnf : f.finished = false) :
    (MAX_DATAFRAMES_IN_ONE_MESSAGE ≤ (buffer ++ [f]).length →
      recvLoop maxMsg buffer curr (f :: rest) =
        .error (.ProtocolError "Exceeded count of data frames in one WebSocket message")) ∧
    ((buffer ++ [f]).length < MAX_DATAFRAMES_IN_ONE_MESSAGE →
      maxMsg ≤ curr + f.data.length + PER_DATAFRAME_OVERHEAD →
      recvLoop maxMsg buffer curr (f :: rest) =
        .error (.ProtocolError "Exceeded maximum WebSocket message size")) ∧
    ((buffer ++ [f]).length < MAX_DATAFRAMES_IN_ONE_MESSAGE →
      curr + f.data.length + PER_DATAFRAME_OVERHEAD < maxMsg →
      recvLoop maxMsg buffer curr (f :: rest) =
        recvLoop maxMsg (buffer ++ [f])
          (curr + f.data.length + PER_DATAFRAME_OVERHEAD) rest) ∧
    (∀ r : Receiver, ∀ first : DataFrame, r.buffer = [] →
      first.opcode ≠ .Continuation → first.finished = false →
      recv_message_dataframes r (first :: rest) =
        recvLoop r.max_message_size [first]
          (first.data.length + PER_DATAFRAME_OVERHEAD) rest) := by
  refine ⟨?_, ?_, ?_, ?_⟩
  · intro hc
    simp only [recvLoop, if_pos hcont, hnf, Bool.false_eq_true, if_false,
      if_pos hc]
  · intro hc hs
    simp only [recvLoop, if_pos hcont, hnf, Bool.false_eq_true, if_false,
      if_neg (by omega : ¬ MAX_DATAFRAMES_IN_ONE_MESSAGE ≤ (buffer ++ [f]).length),
      if_pos hs]
  · intro hc hs
    simp only [recvLoop, if_pos hcont, hnf, Bool.false_eq_true, if_false,
      if_neg (by omega : ¬ MAX_DATAFRAMES_IN_ONE_MESSAGE ≤ (buffer ++ [f]).length),
      if_neg (by omega : ¬ maxMsg ≤ curr + f.data.length + PER_DATAFRAME_OVERHEAD)]
  · intro r first hbuf hfo hff
    simp only [recv_message_dataframes, hbuf, List.isEmpty_nil, if_true,
      if_neg hfo, hff, Bool.false_eq_true, if_false, List.map_nil, List.sum_nil,
      Nat.zero_add]

/-- Witness for the amended C4: the continuation arm of the loop at a
concrete state where both strict bounds hold. -/
theorem claim4_limits_amended_witness :
    (([] ++ [(⟨false, (false, false, false), .Continuation, []⟩ : DataFrame)]).length <
      MAX_DATAFRAMES_IN_ONE_MESSAGE) ∧
    (65 + ([] : List Nat).length + PER_DATAFRAME_OVERHEAD < 200) ∧
    recvLoop 200 [] 65 [⟨false, (false, false, false), .Continuation, []⟩] =
      recvLoop 200 ([] ++ [⟨false, (false, false, false), .Continuation, []⟩])
        (65 + ([] : List Nat).length + PER_DATAFRAME_OVERHEAD) [] :=
  ⟨by decide, by decide,
   (claim4_limits_amended 200 [] 65 ⟨false, (false, false, false), .Continuation, []⟩ []
      rfl rfl).2.2.1 (by decide) (by decide)⟩

/-- C7: when the receiver's buffer is non-empty (a data message is
mid-assembly) and the next frame read has a control opcode (8–15),
`recv_message_dataframes` returns Ok with exactly that one frame, the
buffer is unchanged by the call, and the rest of the reader is untouched. -/
theorem claim7_control_interleave (r : Receiver) (f : DataFrame) (rest : List DataFrame)
    (hne : r.buffer ≠ []) (hctl : 8 ≤ f.opcode.toNat) :
    recv_message_dataframes r (f :: rest) = .ok ([f], r.buffer, rest) := by
  have hnc : ¬ f.opcode = .Continuation := by
    intro h
    rw [h] at hctl
    simp [Opcode.toNat] at hctl
  simp only [recv_message_dataframes, recvLoop, if_neg hnc, if_pos hctl]
  rw [if_neg (show ¬ r.buffer.isEmpty = true by simpa [List.isEmpty_iff] using hne)]

/-- Witness for C7: a Ping frame arriving while one Text fragment is
buffered is returned alone and the buffer survives. -/
theorem claim7_control_interleave_witness :
    ((⟨[⟨false, (false, false, false), .Text, [1]⟩], false, 1000, 1000⟩ :
        Receiver).buffer ≠ []) ∧
    8 ≤ Opcode.toNat .Ping ∧
    recv_message_dataframes ⟨[⟨false, (false, false, false), .Text, [1]⟩], false, 1000, 1000⟩
        [⟨true, (false, false, false), .Ping, [5]⟩,
         ⟨true, (false, false, false), .Continuation, [2]⟩] =
      .ok ([⟨true, (false, false, false), .Ping, [5]⟩],
           [⟨false, (false, false, false), .Text, [1]⟩],
           [⟨true, (false, false, false), .Continuation, [2]⟩]) :=
  ⟨by decide, by decide,
   claim7_control_interleave ⟨[⟨false, (false, false, false), .Text, [1]⟩], false, 1000, 1000⟩
     ⟨true, (false, false, false), .Ping, [5]⟩
     [⟨true, (false, false, false), .Continuation, [2]⟩] (by decide) (by decide)⟩

/-- C5: length minimality on read.  The 2-byte extended form carrying a
value ≤ 125 and the 8-byte extended form carrying a value ≤ 65535 are both
rejected with `DataFrameError("Invalid data frame length")` (whatever the
first header byte), and every minimally encoded length decodes to its
numeric value (shown on an unmasked FIN Text header: the short form, the
2-byte form for 126–65535 and the 8-byte form above 65535). -/
theorem claim5_length_minimality :
    (∀ b0 v rest, v ≤ 125 →
      DataFrameHeader.read (b0 :: 126 :: (toBytesBE 2 v ++ rest)) =
        .error (.DataFrameError "Invalid data frame length")) ∧
    (∀ b0 v rest, v ≤ 65535 →
      DataFrameHeader.read (b0 :: 127 :: (toBytesBE 8 v ++ rest)) =
        .error (.DataFrameError "Invalid data frame length")) ∧
    (∀ v rest, v ≤ 125 →
      DataFrameHeader.read (0x81 :: v :: rest) =
        .ok (⟨⟨true, false, false, false⟩, 1, none, v⟩, rest)) ∧
    (∀ v rest, 126 ≤ v → v ≤ 65535 →
      DataFrameHeader.read (0x81 :: 126 :: (toBytesBE 2 v ++ rest)) =
        .ok (⟨⟨true, false, false, false⟩, 1, none, v⟩, rest)) ∧
    (∀ v rest, 65536 ≤ v → v < 2 ^ 64 →
      DataFrameHeader.read (0x81 :: 127 :: (toBytesBE 8 v ++ rest)) =
        .ok (⟨⟨true, false, false, false⟩, 1, none, v⟩, rest)) := by
  refine ⟨?_, ?_, ?_, ?_, ?_⟩
  · intro b0 v rest hv
    simp only [DataFrameHeader.read, readU8, decodeLen,
      (by decide : (126 : Nat) &&& 127 = 126)]
    norm_num
    rw [readU16BE_toBytesBE v (by omega) rest]
    dsimp only
    rw [if_pos hv]
  · intro b0 v rest hv
    simp only [DataFrameHeader.read, readU8, decodeLen,
      (by decide : (127 : Nat) &&& 127 = 127)]
    norm_num
    rw [readU64BE_toBytesBE v (by omega) rest]
    dsimp only
    rw [if_pos hv]
  · intro v rest hv
    simp only [DataFrameHeader.read, readU8, decodeLen,
      (by decide : DataFrameFlags.from_bits_truncate 0x81 = ⟨true, false, false, false⟩),
      (by decide : (0x81 : Nat) &&& 0x0F = 1)]
    rw [nat_and_127_of_le v (by omega)]
    rw [if_pos hv]
    dsimp only
    norm_num
    intro hm
    rw [nat_and_128_of_le v (by omega)] at hm
    exact absurd hm (by omega)
  · intro v rest h126 h65535
    simp only [DataFrameHeader.read, readU8, decodeLen,
      (by decide : DataFrameFlags.from_bits_truncate 0x81 = ⟨true, false, false, false⟩),
      (by decide : (0x81 : Nat) &&& 0x0F = 1),
      (by decide : (126 : Nat) &&& 127 = 126)]
    norm_num
    rw [readU16BE_toBytesBE v (by omega) rest]
    dsimp only
    rw [if_neg (by omega : ¬ v ≤ 125)]
    dsimp only
    rw [if_neg (by decide : ¬ (126 : Nat) &&& 128 = 128)]
  · intro v rest h65536 h64
    simp only [DataFrameHeader.read, readU8, decodeLen,
      (by decide : DataFrameFlags.from_bits_truncate 0x81 = ⟨true, false, false, false⟩),
      (by decide : (0x81 : Nat) &&& 0x0F = 1),
      (by decide : (127 : Nat) &&& 127 = 127)]
    norm_num
    rw [readU64BE_toBytesBE v h64 rest]
    dsimp only
    rw [if_neg (by omega : ¬ v ≤ 65535)]
    dsimp only
    rw [if_neg (by decide : ¬ (127 : Nat) &&& 128 = 128)]

/-- Witness for C5: the non-minimal encodings 7E 00 05 and 7F 00..FF FF are
rejected; 7E 04 00 decodes to 1024. -/
theorem claim5_length_minimality_witness :
    (5 : Nat) ≤ 125 ∧ (65535 : Nat) ≤ 65535 ∧ (126 : Nat) ≤ 1024 ∧ (1024 : Nat) ≤ 65535 ∧
    DataFrameHeader.read (0x81 :: 126 :: (toBytesBE 2 5 ++ [])) =
      .error (.DataFrameError "Invalid data frame length") ∧
    DataFrameHeader.read (0x81 :: 127 :: (toBytesBE 8 65535 ++ [])) =
      .error (.DataFrameError "Invalid data frame length") ∧
    DataFrameHeader.read (0x81 :: 126 :: (toBytesBE 2 1024 ++ [])) =
      .ok (⟨⟨true, false, false, false⟩, 1, none, 1024⟩, []) :=
  ⟨by decide, by decide, by decide, by decide,
   claim5_length_minimality.1 0x81 5 [] (by decide),
   claim5_length_minimality.2.1 0x81 65535 [] (by decide),
   claim5_length_minimality.2.2.2.1 1024 [] (by decide) (by decide)⟩

/-- C6: for every control-frame header (opcode ≥ 8), `read` fails with
`DataFrameError("Control frame length too long")` when the decoded payload
length is ≥ 126 (shown for both extended length forms, any flag bits), and
with `ProtocolError("Illegal fragmented control frame")` when FIN is clear
(length < 126); with length < 126 and FIN set both checks pass and the
(unmasked) header is returned. -/
theorem claim6_control_checks :
    (∀ f : DataFrameFlags, ∀ op v rest, 8 ≤ op → op < 16 → 126 ≤ v → v ≤ 65535 →
      DataFrameHeader.read ((f.bits ||| op) :: 126 :: (toBytesBE 2 v ++ rest)) =
        .error (.DataFrameError "Control frame length too long")) ∧
    (∀ f : DataFrameFlags, ∀ op v rest, 8 ≤ op → op < 16 → 65536 ≤ v → v < 2 ^ 64 →
      DataFrameHeader.read ((f.bits ||| op) :: 127 :: (toBytesBE 8 v ++ rest)) =
        .error (.DataFrameError "Control frame length too long")) ∧
    (∀ f : DataFrameFlags, ∀ op len rest, 8 ≤ op → op < 16 → f.fin = false → len ≤ 125 →
      DataFrameHeader.read ((f.bits ||| op) :: len :: rest) =
        .error (.ProtocolError "Illegal fragmented control frame")) ∧
    (∀ f : DataFrameFlags, ∀ op len rest, 8 ≤ op → op < 16 → f.fin = true → len ≤ 125 →
      DataFrameHeader.read ((f.bits ||| op) :: len :: rest) =
        .ok (⟨f, op, none, len⟩, rest)) := by
  refine ⟨?_, ?_, ?_, ?_⟩
  · intro f op v rest h8 h16 h126 h65535
    have hbyte0 := DataFrameFlags.byte0_spec f op h16
    simp only [DataFrameHeader.read, readU8, decodeLen,
      (by decide : (126 : Nat) &&& 127 = 126)]
    rw [hbyte0.1, hbyte0.2]
    norm_num
    rw [readU16BE_toBytesBE v (by omega) rest]
    dsimp only
    rw [if_neg (by omega : ¬ v ≤ 125)]
    dsimp only
    rw [if_pos (⟨h8, by omega⟩ : 8 ≤ op ∧ 126 ≤ v)]
  · intro f op v rest h8 h16 h65536 h64
    have hbyte0 := DataFrameFlags.byte0_spec f op h16
    simp only [DataFrameHeader.read, readU8, decodeLen,
      (by decide : (127 : Nat) &&& 127 = 127)]
    rw [hbyte0.1, hbyte0.2]
    norm_num
    rw [readU64BE_toBytesBE v h64 rest]
    dsimp only
    rw [if_neg (by omega : ¬ v ≤ 65535)]
    dsimp only
    rw [if_pos (⟨h8, by omega⟩ : 8 ≤ op ∧ 126 ≤ v)]
  · intro f op len rest h8 h16 hf hlen
    have hbyte0 := DataFrameFlags.byte0_spec f op h16
    simp only [DataFrameHeader.read, readU8, decodeLen]
    rw [hbyte0.1, hbyte0.2, nat_and_127_of_le len (by omega)]
    rw [if_pos hlen]
    dsimp only
    rw [if_neg (by omega : ¬ (8 ≤ op ∧ 126 ≤ len)),
      if_pos (⟨h8, by rw [hf]; decide⟩ : 8 ≤ op ∧ ¬ f.fin = true)]
  · intro f op len rest h8 h16 hf hlen
    have hbyte0 := DataFrameFlags.byte0_spec f op h16
    simp only [DataFrameHeader.read, readU8, decodeLen]
    rw [hbyte0.1, hbyte0.2, nat_and_127_of_le len (by omega)]
    rw [if_pos hlen]
    dsimp only
    rw [if_neg (by omega : ¬ (8 ≤ op ∧ 126 ≤ len)),
      if_neg (by rintro ⟨-, hnf⟩; exact hnf hf : ¬ (8 ≤ op ∧ ¬ f.fin = true)),
      if_neg (by rw [nat_and_128_of_le len (by omega)]; omega : ¬ len &&& 128 = 128)]

/-- Witness for C6: a 130-byte Ping is rejected for length, a non-final
Ping is rejected as fragmented, and a FIN Ping with a 5-byte length parses. -/
theorem claim6_control_checks_witness :
    ((8 : Nat) ≤ 9 ∧ (9 : Nat) < 16 ∧ (126 : Nat) ≤ 130 ∧ (130 : Nat) ≤ 65535) ∧
    DataFrameHeader.read
        (((⟨true, false, false, false⟩ : DataFrameFlags).bits ||| 9) :: 126 ::
          (toBytesBE 2 130 ++ [])) =
      .error (.DataFrameError "Control frame length too long") ∧
    DataFrameHeader.read
        (((⟨false, false, false, false⟩ : DataFrameFlags).bits ||| 9) :: 5 :: []) =
      .error (.ProtocolError "Illegal fragmented control frame") ∧
    DataFrameHeader.read
        (((⟨true, false, false, false⟩ : DataFrameFlags).bits ||| 9) :: 5 :: []) =
      .ok (⟨⟨true, false, false, false⟩, 9, none, 5⟩, []) :=
  ⟨⟨by decide, by decide, by decide, by decide⟩,
   claim6_control_checks.1 ⟨true, false, false, false⟩ 9 130 [] (by decide) (by decide)
     (by decide) (by decide),
   claim6_control_checks.2.2.1 ⟨false, false, false, false⟩ 9 5 [] (by decide) (by decide)
     rfl (by decide),
   claim6_control_checks.2.2.2 ⟨true, false, false, false⟩ 9 5 [] (by decide) (by decide)
     rfl (by decide)⟩

/-- From index ≥ 1 on, a run of continuation frames with clear reserved
bits contributes the concatenation of its payloads. -/
theorem collectPayloads_all_cont (fs : List DataFrame) (i : Nat) (hi : 1 ≤ i)
    (hall : ∀ f ∈ fs, f.opcode = Opcode.Continuation ∧
      f.reserved = (false, false, false)) :
    collectPayloads i fs = .ok (fs.map DataFrame.data).flatten := by
  induction fs generalizing i with
  | nil => simp [collectPayloads]
  | cons f fs ih =>
      obtain ⟨hfo, hfr⟩ := hall f (by simp)
      have hrest : ∀ g ∈ fs, g.opcode = Opcode.Continuation ∧
          g.reserved = (false, false, false) :=
        fun g hg => hall g (by simp [hg])
      simp only [collectPayloads]
      rw [if_neg (by rw [hfo]; simp :
            ¬ (0 < i ∧ f.opcode.toNat ≠ Opcode.toNat .Continuation)),
        if_neg (by simp [hfr] : ¬ f.reserved ≠ (false, false, false)),
        ih (i + 1) (by omega) hrest]
      simp [List.flatten]

/-- The payload-collection loop on a whole message: the first frame is
unconstrained in opcode (index 0 skips the continuation check), the rest
are continuations; all reserved bits clear. -/
theorem collectPayloads_message (first : DataFrame) (rest : List DataFrame)
    (hres : first.reserved = (false, false, false))
    (hrest : ∀ f ∈ rest, f.opcode = Opcode.Continuation ∧
      f.reserved = (false, false, false)) :
    collectPayloads 0 (first :: rest) = .ok ((first :: rest).map DataFrame.data).flatten := by
  simp only [collectPayloads]
  rw [if_neg (by simp : ¬ ((0 : Nat) < 0 ∧
        first.opcode.toNat ≠ Opcode.toNat .Continuation)),
    if_neg (by simp [hres] : ¬ first.reserved ≠ (false, false, false)),
    collectPayloads_all_cont rest 1 (by omega) hrest]
  simp [List.flatten]

/-- C8: `from_dataframes` on a Text frame followed by continuations, all
with clear reserved bits, validates UTF-8 only on the full concatenated
payload: it yields the Text message exactly when that concatenation is
valid UTF-8 (the individual fragments need not be), and fails with
`Utf8Error` exactly when it is not. -/
theorem claim8_utf8_on_assembly (first : DataFrame) (rest : List DataFrame)
    (hop : first.opcode = .Text) (hres : first.reserved = (false, false, false))
    (hrest : ∀ f ∈ rest, f.opcode = Opcode.Continuation ∧
      f.reserved = (false, false, false)) :
    (validUtf8 ((first :: rest).map DataFrame.data).flatten = true →
      from_dataframes (first :: rest) =
        .ok ⟨.Text, none, ((first :: rest).map DataFrame.data).flatten⟩) ∧
    (validUtf8 ((first :: rest).map DataFrame.data).flatten = false →
      from_dataframes (first :: rest) = .error .Utf8Error) := by
  have hcoll := collectPayloads_message first rest hres hrest
  constructor
  · intro hvalid
    simp only [from_dataframes, hcoll, hop, Opcode.new_toNat]
    rw [if_neg (by rw [hvalid]; rintro ⟨-, hc⟩; exact absurd hc (by decide))]
  · intro hvalid
    simp only [from_dataframes, hcoll, hop, Opcode.new_toNat]
    rw [if_pos (⟨trivial, hvalid⟩ : True ∧ _)]

/-- Witness for C8: the two bytes of UTF-8 "é" split across a Text fragment
and a continuation — each fragment alone is invalid UTF-8, the assembled
message is accepted. -/
theorem claim8_utf8_on_assembly_witness :
    (⟨false, (false, false, false), .Text, [0xC3]⟩ : DataFrame).opcode = .Text ∧
    validUtf8 [0xC3] = false ∧ validUtf8 [0xA9] = false ∧
    validUtf8 (([⟨false, (false, false, false), .Text, [0xC3]⟩,
        ⟨true, (false, false, false), .Continuation, [0xA9]⟩] :
        List DataFrame).map DataFrame.data).flatten = true ∧
    from_dataframes [⟨false, (false, false, false), .Text, [0xC3]⟩,
        ⟨true, (false, false, false), .Continuation, [0xA9]⟩] =
      .ok ⟨.Text, none, [0xC3, 0xA9]⟩ :=
  ⟨rfl, by decide, by decide, by decide,
   (claim8_utf8_on_assembly ⟨false, (false, false, false), .Text, [0xC3]⟩
      [⟨true, (false, false, false), .Continuation, [0xA9]⟩] rfl rfl
      (by decide)).1 (by decide)⟩

/-- Evaluation of `from_dataframes` on a single Close frame with clear
reserved bits, by payload shape: empty → code-less Close; one byte → the
u16 status-code read hits end of input; two or more bytes → status code
plus UTF-8-checked reason. -/
theorem from_dataframes_close_singleton (fin : Bool) (d : List Nat) :
    from_dataframes [⟨fin, (false, false, false), .Close, d⟩] =
      (match d with
       | [] => .ok Message.close
       | [_] => .error (.Io .UnexpectedEof)
       | a :: b :: r2 =>
         if validUtf8 r2 then .ok (Message.close_because (a * 256 + b) r2)
         else .error .Utf8Error) := by
  have hcoll := collectPayloads_message ⟨fin, (false, false, false), .Close, d⟩ [] rfl
    (by simp)
  simp only [List.map_cons, List.map_nil, List.flatten_cons, List.flatten_nil,
    List.append_nil] at hcoll
  simp only [from_dataframes, hcoll, Opcode.new_toNat]
  rw [if_neg (by simp : ¬ (some Opcode.Close = some Opcode.Text ∧ validUtf8 d = false))]
  rcases d with _ | ⟨a, _ | ⟨b, r2⟩⟩
  · simp
  · simp [bytes_to_string]
  · rcases hbt : validUtf8 r2 with _ | _ <;>
      simp [bytes_to_string, hbt, Message.close_because]

/-- C10: assembling a single Close frame whose payload is exactly one byte
fails with the Io error `UnexpectedEof` raised while reading the 2-byte
big-endian status code — not with success, a ProtocolError, or a panic
(the model of `from_dataframes` is total, so no panic exists); a code-less
Close message arises only from an empty payload, and a Close message with
a status code only from a payload of at least 2 bytes. -/
theorem claim10_close_one_byte :
    (∀ fin : Bool, ∀ b : Nat,
      from_dataframes [⟨fin, (false, false, false), .Close, [b]⟩] =
        .error (.Io .UnexpectedEof)) ∧
    (∀ fin : Bool, ∀ d m,
      from_dataframes [⟨fin, (false, false, false), .Close, d⟩] = .ok m →
      m.cd_status_code = none → d = []) ∧
    (∀ fin : Bool, ∀ d m,
      from_dataframes [⟨fin, (false, false, false), .Close, d⟩] = .ok m →
      m.cd_status_code.isSome = true → 2 ≤ d.length) := by
  refine ⟨?_, ?_, ?_⟩
  · intro fin b
    rw [from_dataframes_close_singleton]
  · intro fin d m hok hnone
    rcases d with _ | ⟨a, _ | ⟨b, r2⟩⟩
    · rfl
    · rw [from_dataframes_close_singleton] at hok
      exact absurd hok (by simp)
    · rw [from_dataframes_close_singleton] at hok
      dsimp only at hok
      rcases hbt : validUtf8 r2 with _ | _
      · rw [hbt] at hok
        simp at hok
      · rw [hbt] at hok
        simp only [if_true] at hok
        cases hok
        exact absurd hnone (by simp [Message.close_because])
  · intro fin d m hok hsome
    rcases d with _ | ⟨a, _ | ⟨b, r2⟩⟩
    · rw [from_dataframes_close_singleton] at hok
      dsimp only at hok
      cases hok
      exact absurd hsome (by simp [Message.close])
    · rw [from_dataframes_close_singleton] at hok
      exact absurd hok (by simp)
    · simp

/-- Witness for C10: the three payload shapes at concrete inputs. -/
theorem claim10_close_one_byte_witness :
    from_dataframes [⟨true, (false, false, false), .Close, [3]⟩] =
      .error (.Io .UnexpectedEof) ∧
    (from_dataframes [⟨true, (false, false, false), .Close, []⟩] =
        .ok Message.close → Message.close.cd_status_code = none → ([] : List Nat) = []) ∧
    (from_dataframes [⟨true, (false, false, false), .Close, [3, 232, 98]⟩] =
        .ok (Message.close_because 1000 [98]) →
      (Message.close_because 1000 [98]).cd_status_code.isSome = true →
      2 ≤ ([3, 232, 98] : List Nat).length) :=
  ⟨claim10_close_one_byte.1 true 3,
   fun hok hnone => claim10_close_one_byte.2.1 true [] Message.close hok hnone,
   fun hok hsome =>
     claim10_close_one_byte.2.2 true [3, 232, 98] (Message.close_because 1000 [98]) hok hsome⟩

/-- Length of an unpadded base64url encoding: four characters per complete
3-byte group, two or three characters for a trailing group of one or two
bytes. -/
theorem b64urlEncode_length (l : List Nat) :
    (b64urlEncode l).length =
      4 * (l.length / 3) + l.length % 3 + (if l.length % 3 = 0 then 0 else 1) := by
  induction l using b64urlEncode.induct
  · simp [b64urlEncode]
  · simp [b64urlEncode]
  · simp [b64urlEncode]
  · rename_i a b c rest ih
    simp only [b64urlEncode, List.length_cons, ih]
    simp only [show rest.length + 1 + 1 + 1 = rest.length + 3 from by omega,
      Nat.add_mod_right]
    rw [Nat.add_div_right rest.length (by omega)]
    omega

/-- C1: the code bug.  The handshake uses the `URL_SAFE_NO_PAD` Base64
engine, so `WebSocketKey::from_str` rejects the padded RFC 6455 §1.3
sample key with `ProtocolError("Invalid Sec-WebSocket-Accept")` instead of
decoding it, and `WebSocketAccept::serialize` always produces 27 characters
(unpadded encoding of the 20 digest bytes) while the required accept string
"s3pPLMBiTxaQ9kYGzzhZRbK+xOo=" has 28 — so no accept value, whatever
`WebSocketAccept::new` computes, can ever serialize to it. -/
theorem claim1_handshake_key_accept :
    WebSocketKey.from_str "dGhlIHNhbXBsZSBub25jZQ==" =
      .error (.ProtocolError "Invalid Sec-WebSocket-Accept") ∧
    (∀ a : WebSocketAccept, a.serialize.length = 27) ∧
    ("s3pPLMBiTxaQ9kYGzzhZRbK+xOo=".data).length = 28 := by
  refine ⟨?_, ?_, by decide⟩
  · unfold WebSocketKey.from_str
    rw [(by decide : b64urlDecode "dGhlIHNhbXBsZSBub25jZQ==".data = none)]
  · intro a
    unfold WebSocketAccept.serialize
    rw [b64urlEncode_length, a.len20]
    norm_num
